import Mathlib

/-!
Shallow embedding of the core of the onyx-parts-manager application.

The definitions below are direct translations of the Python source:

* `src/src/security/security_utils.py` — `validate_part_number`, `sanitize_string`
* `src/src/database/db.py` — `Database.add_component`, `Database.search_components`,
  `Database.update_supplier_info`, and the table schemas of `Database.init_database`
* `src/src/gui/widgets/parts_list.py` — `PartsList._parse_value_and_unit`

Python strings are modelled as Lean `String` (a sequence of unicode code points,
matching CPython's `str`); Python `int` as `Int`; Python `float` as exact `ℚ`
(the numeric literals of the claims are away from any binary-rounding boundary);
SQLite tables as lists of rows plus an autoincrement counter, with
`CURRENT_TIMESTAMP` modelled as a strictly increasing logical clock.
Character-class tests (`str.isdigit`, regex classes) are modelled on the ASCII
fragment, which covers every input the claims mention.
-/

set_option allowUnsafeReducibility true
attribute [semireducible] Rat.mul Rat.inv Rat.add Rat.sub Rat.ofScientific

deriving instance DecidableEq for Except

namespace OnyxParts

/-! ### Python string primitives -/

/-- Code points for which CPython's `str.isspace` (and hence `str.strip`)
returns true. -/
def pySpaceCodes : List Nat :=
  [9, 10, 11, 12, 13, 28, 29, 30, 31, 32, 133, 160, 5760,
   8192, 8193, 8194, 8195, 8196, 8197, 8198, 8199, 8200, 8201, 8202,
   8232, 8233, 8239, 8287, 12288]

def isPySpace (c : Char) : Bool := pySpaceCodes.contains c.toNat

/-- Model of Python `str.strip()` on a character list: drop whitespace from the
front, then from the back. -/
def stripList (l : List Char) : List Char :=
  ((l.dropWhile isPySpace).reverse.dropWhile isPySpace).reverse

/-- Model of Python `str.strip()`. -/
def pyStrip (s : String) : String := ⟨stripList s.data⟩

/-- Model of the Python slice `s[:n]` for an arbitrary `int` bound `n`
(negative bounds count from the end, clamped at 0). -/
def pySliceTo (s : String) (n : Int) : String :=
  if 0 ≤ n then ⟨s.data.take n.toNat⟩
  else ⟨s.data.take (s.data.length - (-n).toNat)⟩

def nullChar : Char := Char.ofNat 0

/-- Translation of `security_utils.sanitize_string`: empty input maps to `""`;
otherwise truncate to `max_length`, remove null bytes, strip leading and
trailing whitespace.  `max_length` is a Python `int`, hence `Int`. -/
def sanitize_string (s : String) (maxLength : Int) : String :=
  if s = "" then ""
  else
    let t := if (s.data.length : Int) > maxLength then pySliceTo s maxLength else s
    let u : String := ⟨t.data.filter (fun c => c != nullChar)⟩
    pyStrip u

/-- Model of Python `str.upper()` (ASCII fragment, via `Char.toUpper`). -/
def pyUpper (s : String) : String := ⟨s.data.map Char.toUpper⟩

/-- Model of the Python substring test `pat in s`. -/
def containsSub (s pat : String) : Bool :=
  s.data.tails.any (fun t => pat.data.isPrefixOf t)

/-- The SQL-injection blocklist of `validate_part_number`, exactly as written
in the source (note `xp_` and `sp_` are lower-case there). -/
def sql_patterns : List String :=
  ["--", ";", "/*", "*/", "xp_", "sp_", "DROP", "INSERT", "DELETE", "UPDATE",
   "EXEC", "EXECUTE", "SCRIPT", "UNION", "SELECT"]

/-- Character class of `PART_NUMBER_PATTERN = ^[A-Za-z0-9\-_./ ]+$`. -/
def partNumberChar (c : Char) : Bool :=
  (c ≥ 'A' && c ≤ 'Z') || (c ≥ 'a' && c ≤ 'z') || (c ≥ '0' && c ≤ '9') ||
  c == '-' || c == '_' || c == '.' || c == '/' || c == ' '

/-- Model of `PART_NUMBER_PATTERN.match(s)` being non-`None`: the whole string
is a non-empty run of class characters, or — Python's `$` also matches just
before a single final newline — all of it but one trailing `'\n'` is. -/
def partNumberPatternMatch (s : String) : Bool :=
  let ok : List Char → Bool := fun l => !l.isEmpty && l.all partNumberChar
  ok s.data ||
    (match s.data.getLast? with
     | some c => c == '\n' && ok s.data.dropLast
     | none => false)

def MAX_PART_NUMBER_LENGTH : Nat := 100

/-- Translation of `security_utils.validate_part_number`: reject empty input,
input longer than 100, input whose upper-cased form contains a blocklisted
substring, and input not matching `PART_NUMBER_PATTERN`. -/
def validate_part_number (s : String) : Bool :=
  if s = "" then false
  else if s.data.length > MAX_PART_NUMBER_LENGTH then false
  else if sql_patterns.any (fun p => containsSub (pyUpper s) p) then false
  else if !partNumberPatternMatch s then false
  else true

/-! ### Python values and numeric coercions -/

/-- The Python values the database layer's numeric arguments range over. -/
inductive PyVal where
  | pyNone : PyVal
  | pyInt : Int → PyVal
  | pyFloat : ℚ → PyVal
  | pyStr : String → PyVal
deriving DecidableEq

/-- Truncation toward zero, the behaviour of Python `int(float)`. -/
def ratTrunc (q : ℚ) : Int := if 0 ≤ q then q.floor else -((-q).floor)

def digitsVal (l : List Char) : Nat :=
  l.foldl (fun a c => a * 10 + (c.toNat - 48)) 0

/-- Model of Python `int(str)`: strip whitespace, optional sign, digit groups
separated by single underscores (ASCII digits). -/
def pyParseInt (s : String) : Option Int :=
  let t := stripList s.data
  let sg : Int := match t with
    | '-' :: _ => -1
    | _ => 1
  let ds : List Char := match t with
    | '+' :: r => r
    | '-' :: r => r
    | _ => t
  let gs := ds.splitOn '_'
  if !ds.isEmpty && gs.all (fun g => !g.isEmpty && g.all Char.isDigit) then
    some (sg * (digitsVal (ds.filter Char.isDigit) : Int))
  else Option.none

/-- Model of Python `int(x)` on a `PyVal` (`None` is a `TypeError`). -/
def pyIntCoerce : PyVal → Option Int
  | PyVal.pyNone => Option.none
  | PyVal.pyInt n => some n
  | PyVal.pyFloat q => some (ratTrunc q)
  | PyVal.pyStr s => pyParseInt s

/-- Model of the `add_component` coercion
`int(stock) if stock is not None else 0`. -/
def coerceStock (v : PyVal) : Option Int :=
  match v with
  | PyVal.pyNone => some 0
  | _ => pyIntCoerce v

/-- Model of Python `float(str)` on the plain decimal fragment
`[+-]?digits[.digits]` (the only shapes the repository feeds it). -/
def pyParseFloat (s : String) : Option ℚ :=
  let t := stripList s.data
  let sg : ℚ := match t with
    | '-' :: _ => -1
    | _ => 1
  let ds : List Char := match t with
    | '+' :: r => r
    | '-' :: r => r
    | _ => t
  if ds.isEmpty then Option.none
  else if !ds.all (fun c => c.isDigit || c == '.') then Option.none
  else match ds.splitOn '.' with
    | [ip] => if ip.isEmpty then Option.none else some (sg * digitsVal ip)
    | [ip, fp] =>
        if ip.isEmpty && fp.isEmpty then Option.none
        else some (sg * ((digitsVal ip : ℚ) + (digitsVal fp : ℚ) / 10 ^ fp.length))
    | _ => Option.none

/-- Model of the `update_supplier_info` coercion
`float(price) if price is not None else None`; the outer `Option` is the
`ValueError`/`TypeError` case. -/
def coercePrice : PyVal → Option (Option ℚ)
  | PyVal.pyNone => some Option.none
  | PyVal.pyInt n => some (some (n : ℚ))
  | PyVal.pyFloat q => some (some q)
  | PyVal.pyStr s => (pyParseFloat s).map some

/-- Model of the `update_supplier_info` coercion
`int(stock) if stock is not None else None`. -/
def coerceOptStock : PyVal → Option (Option Int)
  | PyVal.pyNone => some Option.none
  | v => (pyIntCoerce v).map some

/-! ### The `components` table and `Database.add_component` -/

/-- One row of the `components` table of `init_database` (timestamps are
carried by the state's logical clock and elided from the row). -/
structure ComponentRow where
  id : Nat
  company_part_number : String
  type_name : String
  value : String
  package_type : String
  footprint_size : String
  voltage_rating : String
  description : String
  manufacturer : String
  mpn : String
  datasheet_path : Option String
  stock : Int
  minimum_stock : Int
deriving DecidableEq

/-- The `components` table: its rows plus the `AUTOINCREMENT` counter. -/
structure ComponentsState where
  rows : List ComponentRow
  nextId : Nat
deriving DecidableEq

def emptyComponentsState : ComponentsState := ⟨[], 1⟩

/-- The distinct error kinds `add_component` can raise: `ValueError` on the
part-number validation, `ValueError` on the stock coercion, and
`sqlite3.IntegrityError` on the `company_part_number` UNIQUE constraint. -/
inductive AddError where
  | invalidPartNumber : AddError
  | invalidStock : AddError
  | integrityError : AddError
deriving DecidableEq

/-- The caller-supplied arguments of `add_component`. -/
structure AddArgs where
  company_part_number : String
  type_name : String
  value : String
  package_type : String
  footprint_size : String
  voltage_rating : String
  description : String
  manufacturer : String
  mpn : String
  datasheet_path : Option String
  stock : PyVal
  minimum_stock : PyVal
deriving DecidableEq

/-- Translation of `Database.add_component`: validate the part number,
sanitize every string field, coerce the stock values, then insert, with the
UNIQUE constraint on `company_part_number` enforced by the schema.  The
returned state is the post-call table (unchanged on any error, since the
failed statement is rolled back / never executed). -/
def add_component (st : ComponentsState) (a : AddArgs) :
    ComponentsState × Except AddError Nat :=
  if !validate_part_number a.company_part_number then
    (st, Except.error AddError.invalidPartNumber)
  else
    let cpn := sanitize_string a.company_part_number 100
    let tn := sanitize_string a.type_name 50
    let v := sanitize_string a.value 100
    let pk := sanitize_string a.package_type 50
    let fs := sanitize_string a.footprint_size 50
    let vr := sanitize_string a.voltage_rating 50
    let ds := sanitize_string a.description 500
    let mf := sanitize_string a.manufacturer 100
    let mp := sanitize_string a.mpn 100
    let dp : Option String := match a.datasheet_path with
      | some p => if p = "" then Option.none else some (sanitize_string p 500)
      | Option.none => Option.none
    match coerceStock a.stock, coerceStock a.minimum_stock with
    | some sv, some mv =>
        if st.rows.any (fun r => r.company_part_number == cpn) then
          (st, Except.error AddError.integrityError)
        else
          (⟨st.rows ++ [⟨st.nextId, cpn, tn, v, pk, fs, vr, ds, mf, mp, dp, sv, mv⟩],
            st.nextId + 1⟩,
           Except.ok st.nextId)
    | _, _ => (st, Except.error AddError.invalidStock)

/-! ### The `supplier_parts` table and `Database.update_supplier_info` -/

/-- One row of the `supplier_parts` table of `init_database`. -/
structure SupplierRow where
  id : Nat
  component_id : Int
  supplier : String
  supplier_part_number : String
  price : Option ℚ
  stock : Option Int
  last_updated : Nat
deriving DecidableEq

/-- The `supplier_parts` table: rows, `AUTOINCREMENT` counter, and a logical
clock standing for `CURRENT_TIMESTAMP`. -/
structure SupplierState where
  rows : List SupplierRow
  nextId : Nat
  clock : Nat
deriving DecidableEq

def emptySupplierState : SupplierState := ⟨[], 1, 0⟩

inductive UpdateError where
  | invalidComponentId : UpdateError
  | invalidPriceStock : UpdateError
deriving DecidableEq

/-- SQLite `INSERT OR REPLACE` into `supplier_parts`: delete every existing
row that collides with the new row on a declared uniqueness constraint, then
insert.  The schema in `init_database` declares exactly one such constraint —
the `id INTEGER PRIMARY KEY` — so only an `id` collision can replace. -/
def insertOrReplaceSupplierRow (rows : List SupplierRow) (r : SupplierRow) :
    List SupplierRow :=
  rows.filter (fun x => x.id != r.id) ++ [r]

/-- Translation of `Database.update_supplier_info`: coerce the component id,
sanitize the supplier and part number, coerce price and stock, then
`INSERT OR REPLACE` a freshly timestamped row with a fresh autoincrement id. -/
def update_supplier_info (st : SupplierState) (component_id : PyVal)
    (supplier part_number : String) (price stock : PyVal) :
    SupplierState × Except UpdateError Unit :=
  match pyIntCoerce component_id with
  | Option.none => (st, Except.error UpdateError.invalidComponentId)
  | some cid =>
    let sup := sanitize_string supplier 50
    let pn := sanitize_string part_number 100
    match coercePrice price, coerceOptStock stock with
    | some pv, some sv =>
        let row : SupplierRow := ⟨st.nextId, cid, sup, pn, pv, sv, st.clock⟩
        (⟨insertOrReplaceSupplierRow st.rows row, st.nextId + 1, st.clock + 1⟩,
         Except.ok ())
    | _, _ => (st, Except.error UpdateError.invalidPriceStock)

/-! ### `Database.search_components`

The three filter parameters are Python optionals (`None` or a string). A
filter contributes a `WHERE` condition exactly when the source's guards fire:
`pn_filter and pn_filter.strip()` plus the re-validation for the part-number
filter, `type_filter and type_filter != "All"` for the type filter,
`value_filter and value_filter.strip()` for the value filter. -/

/-- Does the part-number filter contribute a condition?  (`pn_filter` truthy,
its strip truthy, and the sanitized strip passes `validate_part_number`.) -/
def pnFilterActive : Option String → Bool
  | Option.none => false
  | some s => !(s == "") && !(pyStrip s == "") &&
      validate_part_number (sanitize_string (pyStrip s) 100)

/-- Does the type filter contribute a condition?  (`type_filter` truthy and
not the sentinel `"All"`.) -/
def typeFilterActive : Option String → Bool
  | Option.none => false
  | some s => !(s == "") && !(s == "All")

/-- Does the value filter contribute a condition? -/
def valueFilterActive : Option String → Bool
  | Option.none => false
  | some s => !(s == "") && !(pyStrip s == "")

/-- Translation of the query construction of `Database.search_components`:
the static fragments appended for each active filter, joined onto the base
query, with the filter values accumulated separately as bound parameters
(exactly the `query` / `params` pair handed to `cursor.execute`). -/
def buildSearchQuery (pn tf vf : Option String) : String × List String :=
  let conds : List String :=
    (if pnFilterActive pn then ["company_part_number LIKE ?"] else []) ++
    (if typeFilterActive tf then ["type = ?"] else []) ++
    (if valueFilterActive vf then ["value LIKE ?"] else [])
  let params : List String :=
    (if pnFilterActive pn then
      ["%" ++ sanitize_string (pyStrip (pn.getD "")) 100 ++ "%"] else []) ++
    (if typeFilterActive tf then [sanitize_string (tf.getD "") 50] else []) ++
    (if valueFilterActive vf then
      ["%" ++ sanitize_string (pyStrip (vf.getD "")) 100 ++ "%"] else [])
  let query :=
    if conds.isEmpty then "SELECT * FROM components"
    else "SELECT * FROM components WHERE " ++ String.intercalate " AND " conds
  (query ++ " ORDER BY company_part_number", params)

/-- The eight static SQL texts `search_components` can execute, indexed by
which of the three filters is active. -/
def staticSearchQuery : Bool → Bool → Bool → String
  | false, false, false => "SELECT * FROM components ORDER BY company_part_number"
  | true, false, false =>
      "SELECT * FROM components WHERE company_part_number LIKE ? ORDER BY company_part_number"
  | false, true, false =>
      "SELECT * FROM components WHERE type = ? ORDER BY company_part_number"
  | false, false, true =>
      "SELECT * FROM components WHERE value LIKE ? ORDER BY company_part_number"
  | true, true, false =>
      "SELECT * FROM components WHERE company_part_number LIKE ? AND type = ? ORDER BY company_part_number"
  | true, false, true =>
      "SELECT * FROM components WHERE company_part_number LIKE ? AND value LIKE ? ORDER BY company_part_number"
  | false, true, true =>
      "SELECT * FROM components WHERE type = ? AND value LIKE ? ORDER BY company_part_number"
  | true, true, true =>
      "SELECT * FROM components WHERE company_part_number LIKE ? AND type = ? AND value LIKE ? ORDER BY company_part_number"

/-- SQLite `LIKE` matching (default collation: `%` and `_` wildcards,
ASCII-case-insensitive), on character lists. -/
def likeMatch : List Char → List Char → Bool
  | [], [] => true
  | [], _ :: _ => false
  | '%' :: ps, [] => likeMatch ps []
  | '%' :: ps, c :: s => likeMatch ps (c :: s) || likeMatch ('%' :: ps) s
  | '_' :: _, [] => false
  | '_' :: ps, _ :: s => likeMatch ps s
  | _ :: _, [] => false
  | p :: ps, c :: s => (p.toLower == c.toLower) && likeMatch ps s
termination_by p s => (s.length, p.length)

/-- `column LIKE pattern` on strings. -/
def sqlLike (column pattern : String) : Bool := likeMatch pattern.data column.data

/-- The row predicate denoted by the `WHERE` clause `search_components`
builds: each active filter contributes its conjunct, with the same bound
parameter value `buildSearchQuery` carries. -/
def rowMatches (pn tf vf : Option String) (r : ComponentRow) : Bool :=
  (if pnFilterActive pn then
    sqlLike r.company_part_number
      ("%" ++ sanitize_string (pyStrip (pn.getD "")) 100 ++ "%")
   else true) &&
  (if typeFilterActive tf then r.type_name == sanitize_string (tf.getD "") 50
   else true) &&
  (if valueFilterActive vf then
    sqlLike r.value ("%" ++ sanitize_string (pyStrip (vf.getD "")) 100 ++ "%")
   else true)

/-- Ascending order on the `company_part_number` column (SQLite's BINARY
collation on UTF-8 text is code-point order, `String`'s order). -/
def cpnLE (a b : ComponentRow) : Prop :=
  a.company_part_number ≤ b.company_part_number

instance : DecidableRel cpnLE := fun a b =>
  inferInstanceAs (Decidable (a.company_part_number ≤ b.company_part_number))

instance : IsTotal ComponentRow cpnLE :=
  ⟨fun a b => le_total a.company_part_number b.company_part_number⟩

instance : IsTrans ComponentRow cpnLE :=
  ⟨fun _ _ _ h h' => le_trans h h'⟩

/-- Result-set semantics of `Database.search_components`: the rows satisfying
the built `WHERE` clause, ordered by `company_part_number` ascending. -/
def search_components (db : List ComponentRow) (pn tf vf : Option String) :
    List ComponentRow :=
  List.insertionSort cpnLE (db.filter (rowMatches pn tf vf))

/-! ### `PartsList._parse_value_and_unit` -/

/-- The character split of the parsing loop of `_parse_value_and_unit`: one
left-to-right pass appending each digit-or-dot character to the numeric
buffer and every other character to the unit buffer. -/
def numericUnitSplit (s : String) : String × String :=
  let r := s.data.foldl
    (fun (acc : List Char × List Char) c =>
      if c.isDigit || c == '.' then (acc.1 ++ [c], acc.2) else (acc.1, acc.2 ++ [c]))
    ([], [])
  (⟨r.1⟩, ⟨r.2⟩)

def numericPart (s : String) : String := (numericUnitSplit s).1

def unitPart (s : String) : String := (numericUnitSplit s).2

/-- Python `float(numeric_part)` for a buffer of digits and dots: at most one
dot and at least one digit, else a `ValueError`. -/
def parseNumOpt (s : String) : Option ℚ :=
  let l := s.data
  if l.isEmpty then Option.none
  else if !l.all (fun c => c.isDigit || c == '.') then Option.none
  else match l.splitOn '.' with
    | [ip] => if ip.isEmpty then Option.none else some (digitsVal ip : ℚ)
    | [ip, fp] =>
        if ip.isEmpty && fp.isEmpty then Option.none
        else some ((digitsVal ip : ℚ) + (digitsVal fp : ℚ) / 10 ^ fp.length)
    | _ => Option.none

/-- The `multipliers` dictionary of `_parse_value_and_unit`. -/
def siMultiplier (c : Char) : Option ℚ :=
  if c == 'p' then some (1 / 10 ^ 12)
  else if c == 'n' then some (1 / 10 ^ 9)
  else if c == 'u' then some (1 / 10 ^ 6)
  else if c == 'µ' then some (1 / 10 ^ 6)
  else if c == 'm' then some (1 / 10 ^ 3)
  else if c == 'k' then some (10 ^ 3)
  else if c == 'M' then some (10 ^ 6)
  else Option.none

/-- Python `round(x, 3)` (round half to even) on the exact value. -/
def pyRound3 (q : ℚ) : ℚ :=
  let x := q * 1000
  let n := x.floor
  let f := x - n
  (if f < 1 / 2 then n
   else if 1 / 2 < f then n + 1
   else if n % 2 = 0 then n else n + 1) / 1000

/-- Translation of `PartsList._parse_value_and_unit` (the spec's
`normalize_value`): split the input, parse the numeric buffer, apply the SI
prefix named by the first unit-buffer character, re-scale per component type,
round to 3 decimal places; any parse failure yields `(0, "")`. -/
def parse_value_and_unit (value_str component_type : String) : ℚ × String :=
  if value_str = "" then (0, "")
  else
    match parseNumOpt (numericPart value_str) with
    | Option.none => (0, "")
    | some v0 =>
      let v1 := match (unitPart value_str).data with
        | c :: _ =>
            match siMultiplier c with
            | some m => v0 * m
            | Option.none => v0
        | [] => v0
      let p : ℚ × String :=
        if component_type = "Resistor" then
          if v1 ≥ 10 ^ 6 then (v1 / 10 ^ 6, "MΩ")
          else if v1 ≥ 10 ^ 3 then (v1 / 10 ^ 3, "kΩ")
          else (v1, "Ω")
        else if component_type = "Capacitor" then
          if v1 ≥ 1 / 10 ^ 6 then (v1 * 10 ^ 6, "µF")
          else if v1 ≥ 1 / 10 ^ 9 then (v1 * 10 ^ 9, "nF")
          else (v1 * 10 ^ 12, "pF")
        else if component_type = "Inductor" then
          if v1 ≥ 1 / 10 ^ 3 then (v1 * 10 ^ 3, "mH")
          else if v1 ≥ 1 / 10 ^ 6 then (v1 * 10 ^ 6, "µH")
          else (v1 * 10 ^ 9, "nH")
        else (v1, "")
      (pyRound3 p.1, p.2)

/-! ## Concrete states used by the claim theorems -/

/-- First call of the C1 scenario: a quote for component 1 from supplier
`"DigiKey"` on an empty `supplier_parts` table. -/
def c1State1 : SupplierState :=
  (update_supplier_info emptySupplierState (PyVal.pyInt 1) "DigiKey" "PN-1"
    (PyVal.pyFloat (1 / 2)) (PyVal.pyInt 10)).1

/-- Second call of the C1 scenario: the same (component, supplier) pair again
with new values. -/
def c1State2 : SupplierState :=
  (update_supplier_info c1State1 (PyVal.pyInt 1) "DigiKey" "PN-1"
    (PyVal.pyFloat (3 / 4)) (PyVal.pyInt 7)).1

/-! ## Claim theorems -/

/-- C1: the claim says at most one `supplier_parts` row per
(component, supplier) pair survives any sequence of `update_supplier_info`
calls, and that two calls with the same pair leave exactly one row.  The
schema of `init_database` declares no UNIQUE constraint on
`(component_id, supplier)`, so the `INSERT OR REPLACE` never conflicts:
evaluating the code at the failing input — two calls for component 1 and
supplier `"DigiKey"` — both calls succeed and the table holds **two** rows
for the pair, the first call's values still present. -/
theorem C1_two_upserts_leave_two_rows :
    (update_supplier_info emptySupplierState (PyVal.pyInt 1) "DigiKey" "PN-1"
      (PyVal.pyFloat (1 / 2)) (PyVal.pyInt 10)).2 = Except.ok () ∧
    (update_supplier_info c1State1 (PyVal.pyInt 1) "DigiKey" "PN-1"
      (PyVal.pyFloat (3 / 4)) (PyVal.pyInt 7)).2 = Except.ok () ∧
    (c1State2.rows.filter
      (fun r => r.component_id == 1 && r.supplier == "DigiKey")).length = 2 ∧
    (c1State2.rows.map (fun r => r.price)) = [some (1 / 2), some (3 / 4)] := by
  refine ⟨by decide, by decide, by decide, by decide⟩

/-- C2 counterexample: the claim says a digit after the first non-digit,
non-dot character is not captured into the numeric buffer, naming `"1k5"`.
In the code's single pass every digit goes to the numeric buffer wherever it
sits: on `"1k5"` the buffer is `"15"`, not the contiguous prefix `"1"`. -/
theorem C2_trailing_digit_is_captured :
    numericPart "1k5" = "15" ∧
    "1k5".data.takeWhile (fun c => c.isDigit || c == '.') = ['1'] ∧
    numericPart "1k5" ≠ "1" := by
  refine ⟨by decide, by decide, by decide⟩

/-- Helper: the parsing loop's fold partitions the input characters by the
digit-or-dot predicate, carrying both buffers. -/
theorem foldl_partition (p : Char → Bool) :
    ∀ (l a b : List Char),
      l.foldl (fun (acc : List Char × List Char) c =>
          if p c then (acc.1 ++ [c], acc.2) else (acc.1, acc.2 ++ [c])) (a, b)
        = (a ++ l.filter p, b ++ l.filter (fun c => !p c))
  | [], a, b => by simp
  | c :: l, a, b => by
      rw [List.foldl_cons]
      by_cases h : p c
      · rw [if_pos (by simp [h] : p c = true)]
        rw [foldl_partition p l (a ++ [c]) b]
        simp [h]
      · rw [if_neg (by simp [h] : ¬ p c = true)]
        rw [foldl_partition p l a (b ++ [c])]
        simp [h]

/-- C2 amended: the numeric buffer of `_parse_value_and_unit` collects every
digit and dot character of the input wherever it appears, and the unit buffer
the rest — a partition of the characters, not a prefix split; in particular
`"1k5"` parses as numeric literal 15 with suffix `"k"`, so
`normalize_value("1k5", "Resistor") = (15.0, "kΩ")`. -/
theorem C2_buffers_partition_all_characters :
    (∀ s : String,
      numericPart s = ⟨s.data.filter (fun c => c.isDigit || c == '.')⟩ ∧
      unitPart s = ⟨s.data.filter (fun c => !(c.isDigit || c == '.'))⟩) ∧
    parse_value_and_unit "1k5" "Resistor" = (15, "kΩ") := by
  refine ⟨fun s => ?_, by decide⟩
  have h : numericUnitSplit s =
      (⟨s.data.filter (fun c => c.isDigit || c == '.')⟩,
       ⟨s.data.filter (fun c => !(c.isDigit || c == '.'))⟩) := by
    unfold numericUnitSplit
    rw [foldl_partition (fun c => c.isDigit || c == '.') s.data [] []]
    simp
  exact ⟨by rw [numericPart, h], by rw [unitPart, h]⟩

/-- C3 counterexample: the claim (with the spec) says the validator rejects
`"../../etc/passwd"`; it does not — dots and slashes are in the allowed
character class of `PART_NUMBER_PATTERN` and no blocklist entry occurs in the
upper-cased input — so the claimed conjunction of the three reference
verdicts is false. -/
theorem C3_passwd_path_is_accepted :
    ¬ (validate_part_number "; DELETE FROM components--" = false ∧
       validate_part_number "../../etc/passwd" = false ∧
       validate_part_number "ONX-CAP-001" = true) := by decide

/-- C3 amended: `validate_part_number` rejects
`"; DELETE FROM components--"` (blocklisted `;`, `--`, `DELETE`), accepts
`"../../etc/passwd"` (all characters in the allowed class, no blocklist hit),
and accepts `"ONX-CAP-001"`. -/
theorem C3_validator_reference_verdicts :
    validate_part_number "; DELETE FROM components--" = false ∧
    validate_part_number "../../etc/passwd" = true ∧
    validate_part_number "ONX-CAP-001" = true := by
  refine ⟨by decide, by decide, by decide⟩

/-- C4: for every combination of filter inputs, the SQL text
`search_components` executes is one of eight static strings, selected only by
which filters are active; the filter values themselves travel in the
separate parameter list of `buildSearchQuery`, never in the query text. -/
theorem C4_query_text_is_static (pn tf vf : Option String) :
    (buildSearchQuery pn tf vf).1 =
      staticSearchQuery (pnFilterActive pn) (typeFilterActive tf)
        (valueFilterActive vf) := by
  unfold buildSearchQuery
  cases h1 : pnFilterActive pn <;> cases h2 : typeFilterActive tf <;>
    cases h3 : valueFilterActive vf <;>
      simp [h1, h2, h3, staticSearchQuery, String.intercalate] <;> rfl

/-- C8: the value normalizer satisfies the spec's reference cases, and any
input whose numeric buffer fails to parse yields `(0, "")` (the modelled
`except (ValueError, TypeError)` policy); totality is by construction. -/
theorem C8_normalize_value_reference_cases :
    parse_value_and_unit "100n" "Capacitor" = (100, "nF") ∧
    parse_value_and_unit "4.7µ" "Capacitor" = (47 / 10, "µF") ∧
    parse_value_and_unit "10k" "Resistor" = (10, "kΩ") ∧
    (∀ c, parse_value_and_unit "" c = (0, "")) ∧
    parse_value_and_unit "abc" "Resistor" = (0, "") ∧
    (∀ s c, parseNumOpt (numericPart s) = Option.none →
      parse_value_and_unit s c = (0, "")) := by
  refine ⟨by decide, by decide, by decide, fun c => rfl, by decide, ?_⟩
  intro s c h
  by_cases hs : s = ""
  · simp [parse_value_and_unit, hs]
  · simp [parse_value_and_unit, hs, h]

/-- C9: for every table state and filter combination the result of
`search_components` is ordered by `company_part_number` ascending, and the
sentinel category filter `"All"` gives exactly the result of passing no
category filter. -/
theorem C9_ordered_and_all_sentinel (db : List ComponentRow)
    (pn tf vf : Option String) :
    List.Sorted cpnLE (search_components db pn tf vf) ∧
    search_components db pn (some "All") vf =
      search_components db pn Option.none vf := by
  constructor
  · exact List.sorted_insertionSort cpnLE _
  · rfl

/-- Helper: a validated part number is non-empty, within the length bound,
and matches `PART_NUMBER_PATTERN`. -/
theorem validate_part_number_spec (s : String)
    (h : validate_part_number s = true) :
    s ≠ "" ∧ s.data.length ≤ 100 ∧ partNumberPatternMatch s = true := by
  unfold validate_part_number at h
  split_ifs at h with h1 h2 h3 h4
  refine ⟨h1, ?_, ?_⟩
  · have := h2
    unfold MAX_PART_NUMBER_LENGTH at this
    omega
  · simpa using h4

/-- Helper: a string matching `PART_NUMBER_PATTERN` contains no null byte
(the allowed class has none, and the only character the `$`-before-newline
quirk can add is `'\n'`). -/
theorem no_null_of_pattern (s : String) (h : partNumberPatternMatch s = true) :
    ∀ c ∈ s.data, c ≠ nullChar := by
  intro c hc
  unfold partNumberPatternMatch at h
  simp only [Bool.or_eq_true] at h
  rcases h with h | h
  · simp only [Bool.and_eq_true, List.all_eq_true] at h
    have hcls := h.2 c hc
    intro hEq
    rw [hEq] at hcls
    revert hcls
    decide
  · cases hg : s.data.getLast? with
    | none => rw [hg] at h; simp at h
    | some lc =>
      rw [hg] at h
      simp only [Bool.and_eq_true, beq_iff_eq, List.all_eq_true] at h
      obtain ⟨hlc, -, hall⟩ := h
      have hne : s.data ≠ [] := by
        intro he
        rw [he] at hg
        simp at hg
      have hsplit : s.data.dropLast ++ [s.data.getLast hne] = s.data :=
        List.dropLast_append_getLast hne
      have hlast : s.data.getLast hne = lc := by
        have := List.getLast?_eq_getLast s.data hne
        rw [hg] at this
        exact (Option.some_inj.mp this).symm
      rw [← hsplit, List.mem_append] at hc
      rcases hc with hc | hc
      · have hcls := hall c hc
        intro hEq
        rw [hEq] at hcls
        revert hcls
        decide
      · rw [List.mem_singleton] at hc
        rw [hc, hlast, hlc]
        decide

/-- Helper: on a validated part number, `sanitize_string · 100` performs no
truncation and removes no null byte, so it is exactly `str.strip()`. -/
theorem sanitize_eq_strip_of_valid (s : String)
    (h : validate_part_number s = true) :
    sanitize_string s 100 = pyStrip s := by
  obtain ⟨hne, hlen, hpat⟩ := validate_part_number_spec s h
  have hlen' : ¬ ((s.data.length : Int) > 100) := by omega
  have hfil : s.data.filter (fun c => c != nullChar) = s.data := by
    rw [List.filter_eq_self]
    intro a ha
    simpa using no_null_of_pattern s hpat a ha
  unfold sanitize_string
  rw [if_neg hne, if_neg hlen']
  show pyStrip ⟨s.data.filter (fun c => c != nullChar)⟩ = pyStrip s
  rw [hfil]

/-- C5: in any state whose `components` table already holds the (well-formed:
validated and sanitization-fixed) identifier, `add_component` with that same
identifier fails with the distinct uniqueness-violation error
(`sqlite3.IntegrityError`, `AddError.integrityError` here, distinct from the
two `ValueError` kinds) and leaves the table state unchanged. -/
theorem C5_duplicate_identifier_rejected (st : ComponentsState) (a : AddArgs)
    (h1 : validate_part_number a.company_part_number = true)
    (h2 : sanitize_string a.company_part_number 100 = a.company_part_number)
    (h3 : a.company_part_number ∈ st.rows.map (fun r => r.company_part_number))
    (h4 : coerceStock a.stock ≠ Option.none)
    (h5 : coerceStock a.minimum_stock ≠ Option.none) :
    add_component st a = (st, Except.error AddError.integrityError) := by
  obtain ⟨sv, hsv⟩ := Option.ne_none_iff_exists'.mp h4
  obtain ⟨mv, hmv⟩ := Option.ne_none_iff_exists'.mp h5
  have hany : st.rows.any
      (fun r => r.company_part_number ==
        sanitize_string a.company_part_number 100) = true := by
    rw [h2, List.any_eq_true]
    obtain ⟨r, hr, hrc⟩ := List.mem_map.mp h3
    exact ⟨r, hr, by simp [hrc]⟩
  simp [add_component, h1, hsv, hmv, hany]

/-- The row already present in the C5 witness state. -/
def c5Row : ComponentRow :=
  ⟨1, "ONX-CAP-001", "Capacitor", "100n", "", "", "", "", "", "",
   Option.none, 0, 0⟩

def c5State : ComponentsState := ⟨[c5Row], 2⟩

def c5Args : AddArgs :=
  ⟨"ONX-CAP-001", "Capacitor", "100n", "", "", "", "", "", "",
   Option.none, PyVal.pyInt 1, PyVal.pyInt 0⟩

/-- C5 witness: re-adding `"ONX-CAP-001"` to a table that holds it raises the
uniqueness error and changes nothing. -/
theorem C5_witness :
    add_component c5State c5Args = (c5State, Except.error AddError.integrityError) :=
  C5_duplicate_identifier_rejected c5State c5Args (by decide) (by decide)
    (by decide) (by decide) (by decide)

def c6Args : AddArgs :=
  ⟨" ONX-1", "Resistor", "10k", "", "", "", "", "", "",
   Option.none, PyVal.pyInt 0, PyVal.pyInt 0⟩

/-- C6 counterexample: the claim says a validated identifier is stored
exactly as supplied, including leading/trailing whitespace.  `" ONX-1"`
passes validation (the pattern class contains the space), yet the stored
identifier is the stripped `"ONX-1"` — `sanitize_string` runs after
validation and auto-corrects the key. -/
theorem C6_whitespace_is_stripped :
    validate_part_number " ONX-1" = true ∧
    (add_component emptyComponentsState c6Args).2 = Except.ok 1 ∧
    ((add_component emptyComponentsState c6Args).1.rows.map
      (fun r => r.company_part_number)) = ["ONX-1"] ∧
    (" ONX-1" : String) ≠ "ONX-1" := by
  refine ⟨by decide, by decide, by decide, by decide⟩

/-- C6 amended: `add_component` never silently repairs a rejected identifier
— validation failure aborts the write with the distinct validation error —
but an accepted identifier is stored as the caller's input with its
leading/trailing whitespace stripped (and only that: for a validated input
`sanitize_string`'s truncation and null-removal are no-ops), not always
byte-for-byte as supplied. -/
theorem C6_reject_or_store_stripped (st : ComponentsState) (a : AddArgs) :
    (validate_part_number a.company_part_number = false →
      add_component st a = (st, Except.error AddError.invalidPartNumber)) ∧
    (∀ rid, (add_component st a).2 = Except.ok rid →
      (add_component st a).1.rows.map (fun r => r.company_part_number) =
        st.rows.map (fun r => r.company_part_number) ++
          [pyStrip a.company_part_number]) := by
  constructor
  · intro h
    simp [add_component, h]
  · intro rid h
    cases hv : validate_part_number a.company_part_number with
    | false => rw [add_component, if_pos (by simp [hv])] at h; simp at h
    | true =>
      rw [← sanitize_eq_strip_of_valid _ hv]
      cases hsv : coerceStock a.stock with
      | none =>
          rw [add_component, if_neg (by simp [hv])] at h ⊢
          simp only [hsv] at h
          cases coerceStock a.minimum_stock <;> simp at h
      | some sv =>
        cases hmv : coerceStock a.minimum_stock with
        | none =>
            rw [add_component, if_neg (by simp [hv])] at h
            simp only [hsv, hmv] at h
            simp at h
        | some mv =>
          by_cases hany : st.rows.any
              (fun r => r.company_part_number =
                sanitize_string a.company_part_number 100)
          · rw [add_component, if_neg (by simp [hv])] at h
            simp only [hsv, hmv] at h
            rw [if_pos (by simpa using hany)] at h
            simp at h
          · rw [add_component, if_neg (by simp [hv])]
            simp only [hsv, hmv]
            rw [if_neg (by simpa using hany)]
            simp

def c6wArgs : AddArgs :=
  ⟨" R-10 ", "Resistor", "10k", "", "", "", "", "", "",
   Option.none, PyVal.pyInt 0, PyVal.pyInt 0⟩

/-- C6 witness: a successful insert of the identifier `" R-10 "` stores its
stripped form. -/
theorem C6_witness :
    (add_component emptyComponentsState c6wArgs).1.rows.map
      (fun r => r.company_part_number) =
    emptyComponentsState.rows.map (fun r => r.company_part_number) ++
      [pyStrip " R-10 "] :=
  (C6_reject_or_store_stripped emptyComponentsState c6wArgs).2 1 (by decide)

def c7Args : AddArgs :=
  ⟨"ONX-R-001", "Resistor", "10k", "", "", "", "", "", "",
   Option.none, PyVal.pyInt (-5), PyVal.pyInt 0⟩

/-- C7 counterexample: the claim says stored stock values are non-negative.
`int(-5)` coerces fine and the code applies no lower bound (and the schema no
CHECK constraint), so `stock = -5` is stored as −5. -/
theorem C7_negative_stock_is_stored :
    (add_component emptyComponentsState c7Args).2 = Except.ok 1 ∧
    ((add_component emptyComponentsState c7Args).1.rows.map
      (fun r => r.stock)) = [-5] ∧
    ¬ (0 : Int) ≤ -5 := by
  refine ⟨by decide, by decide, by decide⟩

/-- C7 amended: `add_component` raises the distinct stock `ValueError` when
either stock argument is not integer-coercible (state unchanged), and
otherwise stores exactly the Python `int(·)` coercions of the two arguments —
which may be negative; no non-negativity is enforced. -/
theorem C7_stock_coerced_exactly (st : ComponentsState) (a : AddArgs)
    (h1 : validate_part_number a.company_part_number = true) :
    ((coerceStock a.stock = Option.none ∨
      coerceStock a.minimum_stock = Option.none) →
      add_component st a = (st, Except.error AddError.invalidStock)) ∧
    (∀ sv mv rid, coerceStock a.stock = some sv →
      coerceStock a.minimum_stock = some mv →
      (add_component st a).2 = Except.ok rid →
      (add_component st a).1.rows.map (fun r => r.stock) =
        st.rows.map (fun r => r.stock) ++ [sv] ∧
      (add_component st a).1.rows.map (fun r => r.minimum_stock) =
        st.rows.map (fun r => r.minimum_stock) ++ [mv]) := by
  constructor
  · intro h
    rw [add_component, if_neg (by simp [h1])]
    rcases h with h | h
    · rw [h]
    · rw [h]
      try (cases coerceStock a.stock <;> simp)
  · intro sv mv rid hsv hmv h
    rw [add_component, if_neg (by simp [h1])] at h ⊢
    simp only [hsv, hmv] at h ⊢
    by_cases hany : st.rows.any
        (fun r => r.company_part_number =
          sanitize_string a.company_part_number 100)
    · rw [if_pos (by simpa using hany)] at h
      simp at h
    · rw [if_neg (by simpa using hany)]
      simp

def c7wArgs : AddArgs :=
  ⟨"ONX-R-002", "Resistor", "10k", "", "", "", "", "", "",
   Option.none, PyVal.pyStr "7", PyVal.pyNone⟩

/-- C7 witness: `stock="7"` coerces to 7, `minimum_stock=None` defaults to 0,
and both are stored exactly. -/
theorem C7_witness :
    (add_component emptyComponentsState c7wArgs).1.rows.map
      (fun r => r.stock) =
      emptyComponentsState.rows.map (fun r => r.stock) ++ [7] ∧
    (add_component emptyComponentsState c7wArgs).1.rows.map
      (fun r => r.minimum_stock) =
      emptyComponentsState.rows.map (fun r => r.minimum_stock) ++ [0] :=
  (C7_stock_coerced_exactly emptyComponentsState c7wArgs (by decide)).2
    7 0 1 (by decide) (by decide) (by decide)

/-! ## Strip/sanitize structure lemmas (for C10) -/

theorem stripList_eq_rdrop (l : List Char) :
    stripList l = List.rdropWhile isPySpace (l.dropWhile isPySpace) := rfl

/-- Helper: a prefix of a list that `dropWhile` fixes is itself fixed. -/
theorem dropWhile_fix_of_prefix (p : Char → Bool) (t m : List Char)
    (hpre : t <+: m) (hm : m.dropWhile p = m) : t.dropWhile p = t := by
  cases t with
  | nil => rfl
  | cons a t' =>
    obtain ⟨r, hr⟩ := hpre
    cases m with
    | nil => simp at hr
    | cons b m' =>
      have hab : a = b := by
        have := congrArg (fun l => l.head?) hr
        simpa using this
      have hpb : p b = false := by
        by_contra hpb'
        have hpb2 : p b = true := by simpa using hpb'
        rw [List.dropWhile_cons, if_pos hpb2] at hm
        have hlen := congrArg List.length hm
        have hle := (List.dropWhile_sublist p (l := m')).length_le
        simp at hlen
        omega
      rw [List.dropWhile_cons, hab, if_neg (by simp [hpb])]

/-- Helper: stripping both ends is idempotent. -/
theorem stripList_idem (l : List Char) :
    stripList (stripList l) = stripList l := by
  rw [stripList_eq_rdrop, stripList_eq_rdrop]
  have h1 : List.dropWhile isPySpace
      (List.rdropWhile isPySpace (l.dropWhile isPySpace)) =
      List.rdropWhile isPySpace (l.dropWhile isPySpace) :=
    dropWhile_fix_of_prefix isPySpace _ _
      (List.rdropWhile_prefix isPySpace (l.dropWhile isPySpace))
      (List.dropWhile_idempotent isPySpace l)
  rw [h1, List.rdropWhile_idempotent]

theorem mem_of_mem_stripList (c : Char) (l : List Char)
    (h : c ∈ stripList l) : c ∈ l := by
  rw [stripList_eq_rdrop] at h
  have h1 := (List.rdropWhile_prefix isPySpace (l.dropWhile isPySpace)).sublist.mem h
  exact (List.dropWhile_sublist isPySpace).mem h1

theorem stripList_length_le (l : List Char) :
    (stripList l).length ≤ l.length := by
  rw [stripList_eq_rdrop]
  calc (List.rdropWhile isPySpace (l.dropWhile isPySpace)).length
      ≤ (l.dropWhile isPySpace).length :=
        (List.rdropWhile_prefix isPySpace _).sublist.length_le
    _ ≤ l.length := (List.dropWhile_sublist isPySpace).length_le

/-- Helper: the raw character list a non-empty input sanitizes to. -/
theorem sanitize_string_data (s : String) (n : Int) (hs : s ≠ "") :
    (sanitize_string s n).data =
      stripList (((if (s.data.length : Int) > n then pySliceTo s n else s).data).filter
        (fun c => c != nullChar)) := by
  unfold sanitize_string
  rw [if_neg hs]
  rfl

/-- Helper: `sanitize_string` is the identity on a string that is already
short enough, null-free and stripped. -/
theorem sanitize_string_noop (t : String) (n : Int)
    (hl : (t.data.length : Int) ≤ n)
    (hnull : ∀ c ∈ t.data, c ≠ nullChar)
    (hstrip : stripList t.data = t.data) :
    sanitize_string t n = t := by
  by_cases ht : t = ""
  · rw [ht]
    unfold sanitize_string
    rw [if_pos rfl]
  · unfold sanitize_string
    rw [if_neg ht, if_neg (by omega : ¬ ((t.data.length : Int) > n))]
    show pyStrip ⟨t.data.filter (fun c => c != nullChar)⟩ = t
    rw [List.filter_eq_self.mpr (fun a ha => by simpa using hnull a ha)]
    show String.mk (stripList t.data) = t
    rw [hstrip]

/-- C10 counterexample: the claim quantifies over every `max_length`, but
`max_length` is a Python `int` and the truncation is the slice `s[:n]`, which
for a negative bound drops from the end: with `n = -1` each pass shortens
`"abc"` again, so the function is not idempotent there. -/
theorem C10_negative_length_not_idempotent :
    sanitize_string "abc" (-1) = "ab" ∧
    sanitize_string (sanitize_string "abc" (-1)) (-1) ≠
      sanitize_string "abc" (-1) := by
  refine ⟨by decide, by decide⟩

/-- C10 amended: for every non-negative `max_length` — every bound actually
used by the repository — `sanitize_string` is idempotent: its output is
within the bound, null-free and stripped, so a second pass changes
nothing. -/
theorem C10_sanitize_idempotent (s : String) (n : Int) (h : 0 ≤ n) :
    sanitize_string (sanitize_string s n) n = sanitize_string s n := by
  by_cases hs : s = ""
  · rw [hs]
    have h0 : sanitize_string "" n = "" := by
      unfold sanitize_string
      rw [if_pos rfl]
    rw [h0, h0]
  · have hdata := sanitize_string_data s n hs
    refine sanitize_string_noop _ n ?_ ?_ ?_
    · rw [hdata]
      by_cases hb : (s.data.length : Int) > n
      · rw [if_pos hb]
        have h1 := stripList_length_le
          ((pySliceTo s n).data.filter (fun c => c != nullChar))
        have h2 := List.length_filter_le (fun c => c != nullChar) (pySliceTo s n).data
        have h3 : (pySliceTo s n).data.length ≤ n.toNat := by
          unfold pySliceTo
          rw [if_pos h]
          exact List.length_take_le n.toNat s.data
        omega
      · rw [if_neg hb]
        have h1 := stripList_length_le (s.data.filter (fun c => c != nullChar))
        have h2 := List.length_filter_le (fun c => c != nullChar) s.data
        omega
    · intro c hc
      rw [hdata] at hc
      have hmem := mem_of_mem_stripList c _ hc
      have := List.of_mem_filter hmem
      simpa using this
    · rw [hdata]
      exact stripList_idem _

/-- C10 witness: idempotence at a concrete input and the default bound. -/
theorem C10_witness :
    sanitize_string (sanitize_string "  a b " 500) 500 =
      sanitize_string "  a b " 500 :=
  C10_sanitize_idempotent "  a b " 500 (by decide)

end OnyxParts
